import Mathlib

/-!
Verification of the HealthAgent patient-intake dialogue flow.

This file gives a shallow embedding, in Lean, of the parts of the
repository that the checked claims are about:

* the per-session state store (`flow_manager.state`, a Python dict),
  modelled as an insertion-ordered association list;
* the confirmation transition handlers of `src/medical_intake_flow.py`
  (first/last name, payer name, payer id, physician names, full address,
  email), each modelled as a pure function from the function-call result
  and the current state to the new state and the next active node;
* the payer-id string-to-integer conversion of `collect_payer_id` /
  `confirm_payer_id`, including a model of Python `int()` parsing and of
  `str.isdigit`;
* the e-mail extraction regex scan of `handle_email_collection` /
  `handle_email_confirmation` (Python `re.findall` with the pattern
  `\b[A-Za-z0-9._%+-]+@[A-Za-z0-9.-]+\.[A-Za-z]{2,}\b`);
* the USPS result mapping of
  `src/services/address_validator.py::AddressValidator.validate_address`;
* the appointment-offer machinery of `src/bot.py`
  (`prepare_appointment_offer_message_handler`, `handle_appointment_choice`
  and the `offer_appointments` node configuration).

Machine-level Python behaviour (dict truthiness, string truthiness,
`int()` parsing, `str.isdigit`) is modelled explicitly where the control
flow of the source depends on it.
-/

/-! ## Python dict model (the per-session state store) -/

/-- A value stored in `flow_manager.state`.  The flow stores strings,
integers, `None` (for an explicitly skipped e-mail), booleans, and one
nested dict holding the validated address components. -/
inductive PyVal where
  | vStr (s : String)
  | vInt (n : Int)
  | vBool (b : Bool)
  | vNone
  | vAddr (street : String) (city : String) (state : String) (zip : String)
deriving DecidableEq, Repr

/-- `flow_manager.state`: a Python dict, modelled as an insertion-ordered
association list with unique keys. -/
abbrev StateStore := List (String × PyVal)

/-- Python `d.get(k)` / `d[k]` lookup. -/
def dictGet (k : String) : StateStore → Option PyVal
  | [] => none
  | (k', v) :: rest => if k' = k then some v else dictGet k rest

/-- Python `d[k] = v`: replaces the value in place if the key is present
(dicts preserve insertion order), appends otherwise. -/
def dictSet (k : String) (v : PyVal) : StateStore → StateStore
  | [] => [(k, v)]
  | (k', v') :: rest => if k' = k then (k, v) :: rest else (k', v') :: dictSet k v rest

/-- Python `d.pop(k, None)`. -/
def dictPop (k : String) (d : StateStore) : StateStore :=
  d.filter (fun p => p.1 ≠ k)

/-- `state.get(k, dflt)` where the caller expects a string; any non-string
value (in particular a stored `None`) is only ever used for truthiness by
the source, which the callers below reproduce. -/
def getStrD (st : StateStore) (k : String) (dflt : String) : String :=
  match dictGet k st with
  | some (PyVal.vStr s) => s
  | _ => dflt

/-- `state.get(k, dflt)` for an integer-valued field. -/
def getIntD (st : StateStore) (k : String) (dflt : Int) : Int :=
  match dictGet k st with
  | some (PyVal.vInt n) => n
  | _ => dflt

/-! ## Python string helpers from `medical_intake_flow.py` -/

/-- Python `s.replace(" ", "")`: removing every space is filtering the
space characters out. -/
def removeSpaceChars (s : String) : List Char :=
  s.toList.filter (fun c => c ≠ ' ')

/-- `remove_spaces`: remove spaces, preserving case. -/
def remove_spaces (spaced_text : String) : String :=
  String.mk (removeSpaceChars spaced_text)

/-- The 26 ASCII uppercase/lowercase letter pairs, used to model Python
`str.lower()` and `str.upper()` on the ASCII strings this flow handles. -/
def asciiCasePairs : List (Char × Char) :=
  [('A', 'a'), ('B', 'b'), ('C', 'c'), ('D', 'd'), ('E', 'e'), ('F', 'f'),
   ('G', 'g'), ('H', 'h'), ('I', 'i'), ('J', 'j'), ('K', 'k'), ('L', 'l'),
   ('M', 'm'), ('N', 'n'), ('O', 'o'), ('P', 'p'), ('Q', 'q'), ('R', 'r'),
   ('S', 's'), ('T', 't'), ('U', 'u'), ('V', 'v'), ('W', 'w'), ('X', 'x'),
   ('Y', 'y'), ('Z', 'z')]

/-- Python `str.lower()` restricted to one character (ASCII letters are
mapped, everything else is unchanged; all strings the flow lowercases are
ASCII). -/
def pyLowerChar (c : Char) : Char :=
  match asciiCasePairs.find? (fun p => p.1 = c) with
  | some p => p.2
  | none => c

/-- Python `str.upper()` restricted to one character. -/
def pyUpperChar (c : Char) : Char :=
  match asciiCasePairs.find? (fun p => p.2 = c) with
  | some p => p.1
  | none => c

/-- Python `str.lower()`. -/
def pyLower (s : String) : String :=
  String.mk (s.toList.map pyLowerChar)

/-- Python `str.upper()`. -/
def pyUpper (s : String) : String :=
  String.mk (s.toList.map pyUpperChar)

/-- `spaced_letters_to_word`: remove spaces and lowercase
(`"A S A T"` becomes `"asat"`). -/
def spaced_letters_to_word (spaced_text : String) : String :=
  String.mk ((removeSpaceChars spaced_text).map pyLowerChar)

/-- ASCII uppercase test (`'A'` through `'Z'`). -/
def isUpperAscii (c : Char) : Bool :=
  (asciiCasePairs.find? (fun p => p.1 = c)).isSome

/-- A string with no ASCII uppercase letter in it. -/
def noUpper (s : String) : Prop :=
  ∀ c ∈ s.toList, isUpperAscii c = false

/-! ## The conversation nodes that the modelled handlers can activate

Each constructor is one `create_*_node` call site; dynamically rendered
nodes carry the value they are rendered with. -/

inductive NodeRef where
  | collectLastName
  | confirmFirstName (name : String)
  | collectPayerName
  | confirmLastName (name : String)
  | collectPayerId
  | confirmPayerName (name : String)
  | checkReferral
  | confirmPayerId (payerId : Int)
  | collectPhysicianFirstName
  | confirmPhysicianFirstName (name : String)
  | collectPhysicianLastName
  | confirmPhysicianLastName (name : String)
  | collectComplaint
  | collectFullAddress
  | confirmFullAddress (address : String)
  | addressInvalidFull
  | addressInvalidFormat
  | collectPhone
  | askEmailPreference
  | collectEmail
  | confirmEmail (email : String)
  | scheduleAppointment
  | confirmAppointment (time : String)
  | endNode
deriving DecidableEq, Repr

/-! ## Name confirmation handlers (`medical_intake_flow.py`)

Each handler receives the `SpellingConfirmationResult`
`(confirmed, corrected_spelling)` — `corrected_spelling` defaults to the
empty string — and the current state, and returns the mutated state plus
the node passed to `flow_manager.set_node`. -/

/-- `handle_first_name_confirmation`. -/
def handle_first_name_confirmation (confirmed : Bool) (corrected_spelling : String)
    (st : StateStore) : StateStore × NodeRef :=
  if confirmed then
    (st, NodeRef.collectLastName)
  else if corrected_spelling ≠ "" then
    let corrected_name := spaced_letters_to_word corrected_spelling
    (dictSet ("first_name") (PyVal.vStr corrected_name) st,
     NodeRef.confirmFirstName corrected_name)
  else
    (st, NodeRef.confirmFirstName (getStrD st ("first_name") ("")))

/-- `handle_last_name_confirmation`. -/
def handle_last_name_confirmation (confirmed : Bool) (corrected_spelling : String)
    (st : StateStore) : StateStore × NodeRef :=
  if confirmed then
    (st, NodeRef.collectPayerName)
  else if corrected_spelling ≠ "" then
    let corrected_name := spaced_letters_to_word corrected_spelling
    (dictSet ("last_name") (PyVal.vStr corrected_name) st,
     NodeRef.confirmLastName corrected_name)
  else
    (st, NodeRef.confirmLastName (getStrD st ("last_name") ("")))

/-- `handle_payer_name_confirmation`. -/
def handle_payer_name_confirmation (confirmed : Bool) (corrected_spelling : String)
    (st : StateStore) : StateStore × NodeRef :=
  if confirmed then
    (st, NodeRef.collectPayerId)
  else if corrected_spelling ≠ "" then
    let corrected_name := spaced_letters_to_word corrected_spelling
    (dictSet ("payer_name") (PyVal.vStr corrected_name) st,
     NodeRef.confirmPayerName corrected_name)
  else
    (st, NodeRef.confirmPayerName (getStrD st ("payer_name") ("")))

/-- `handle_payer_id_confirmation`; `corrected_id` is the integer produced
by `confirm_payer_id` (0 when no correction was given). -/
def handle_payer_id_confirmation (confirmed : Bool) (corrected_id : Int)
    (st : StateStore) : StateStore × NodeRef :=
  if confirmed then
    (st, NodeRef.checkReferral)
  else if corrected_id ≠ 0 then
    (dictSet ("payer_id") (PyVal.vInt corrected_id) st,
     NodeRef.confirmPayerId corrected_id)
  else
    (st, NodeRef.confirmPayerId (getIntD st ("payer_id") 0))

/-- `handle_physician_first_name_confirmation`. -/
def handle_physician_first_name_confirmation (confirmed : Bool)
    (corrected_spelling : String) (st : StateStore) : StateStore × NodeRef :=
  if confirmed then
    (st, NodeRef.collectPhysicianLastName)
  else if corrected_spelling ≠ "" then
    let corrected_name := spaced_letters_to_word corrected_spelling
    (dictSet ("physician_first_name") (PyVal.vStr corrected_name) st,
     NodeRef.confirmPhysicianFirstName corrected_name)
  else
    (st, NodeRef.confirmPhysicianFirstName (getStrD st ("physician_first_name") ("")))

/-- `handle_physician_last_name_confirmation`. -/
def handle_physician_last_name_confirmation (confirmed : Bool)
    (corrected_spelling : String) (st : StateStore) : StateStore × NodeRef :=
  if confirmed then
    (st, NodeRef.collectComplaint)
  else if corrected_spelling ≠ "" then
    let corrected_name := spaced_letters_to_word corrected_spelling
    (dictSet ("physician_last_name") (PyVal.vStr corrected_name) st,
     NodeRef.confirmPhysicianLastName corrected_name)
  else
    (st, NodeRef.confirmPhysicianLastName (getStrD st ("physician_last_name") ("")))

/-! ## Payer-id conversion (`collect_payer_id` / `confirm_payer_id`)

The source converts a caller-supplied value with
`int(remove_spaces(str(x)))`, falling back to
`int("".join(filter(str.isdigit, str(x))))`, defaulting to 0 when no
digit is present.  The fallback `int()` call is *not* inside a
`try`/`except`, so it can raise.  We model Python `int()` parsing and
`str.isdigit` over the character universe exercised here: all of ASCII
plus the superscript-two character U+00B2, for which `str.isdigit` is
true (Unicode Numeric_Type=Digit) while `int()` rejects it (it only
accepts Numeric_Type=Decimal digits). -/

/-- Python `str.isdigit`, on the character universe described above. -/
def pyIsDigit (c : Char) : Bool :=
  c.isDigit || c = '²'

/-- Characters stripped by Python `int()` / `str.strip()`. -/
def pyIsSpace (c : Char) : Bool :=
  c = ' ' || c = '\t' || c = '\n' || c = '\r' || c = '\x0b' || c = '\x0c'

/-- Strip whitespace from both ends of a character list. -/
def stripWs (l : List Char) : List Char :=
  ((l.dropWhile pyIsSpace).reverse.dropWhile pyIsSpace).reverse

/-- Numeric value of an ASCII digit. -/
def digitVal (c : Char) : Nat :=
  c.toNat - 48

/-- Continuation of Python `int()` digit parsing: after at least one
digit, the remainder must be digits with single underscores allowed only
between digits (`afterUnd` records whether the previous character was an
underscore). -/
def parseIntRest (acc : Nat) (afterUnd : Bool) : List Char → Option Nat
  | [] => if afterUnd then none else some acc
  | c :: rest =>
    if c.isDigit then parseIntRest (acc * 10 + digitVal c) false rest
    else if c = '_' && !afterUnd then parseIntRest acc true rest
    else none

/-- Python `int()` digit-sequence parsing (no sign): one decimal digit
followed by digits, with single underscores between digits. -/
def parseIntDigits : List Char → Option Nat
  | [] => none
  | c :: rest => if c.isDigit then parseIntRest (digitVal c) false rest else none

/-- Python `int(s)`: strip whitespace, optional sign, digit sequence;
`none` models a raised `ValueError`. -/
def pyIntParse (s : String) : Option Int :=
  let l := stripWs s.toList
  match l with
  | [] => none
  | c :: rest =>
    if c = '+' then (parseIntDigits rest).map Int.ofNat
    else if c = '-' then (parseIntDigits rest).map (fun n => -(Int.ofNat n))
    else (parseIntDigits l).map Int.ofNat

/-- Decimal value of a list of ASCII digits. -/
def digitsToNat (l : List Char) : Nat :=
  l.foldl (fun a c => a * 10 + digitVal c) 0

/-- `collect_payer_id`: the conversion applied to the `payer_id`
argument.  `Except.error` marks an uncaught `ValueError` escaping the
handler (the second `int()` call sits inside the `except` block and is
unprotected). -/
def collect_payer_id (payer_id_str : String) : Except String Int :=
  match pyIntParse (remove_spaces payer_id_str) with
  | some n => Except.ok n
  | none =>
    if String.mk (payer_id_str.toList.filter pyIsDigit) ≠ "" then
      match pyIntParse (String.mk (payer_id_str.toList.filter pyIsDigit)) with
      | some n => Except.ok n
      | none => Except.error ("ValueError")
    else
      Except.ok 0

/-- `confirm_payer_id`: same conversion applied to the `corrected_id`
argument when it is truthy; otherwise the result carries `corrected_id=0`. -/
def confirm_payer_id (confirmed : Bool) (corrected_id_str : String) :
    Except String (Bool × Int) :=
  if corrected_id_str ≠ "" then
    match pyIntParse (remove_spaces corrected_id_str) with
    | some n => Except.ok (confirmed, n)
    | none =>
      if String.mk (corrected_id_str.toList.filter pyIsDigit) ≠ "" then
        match pyIntParse (String.mk (corrected_id_str.toList.filter pyIsDigit)) with
        | some n => Except.ok (confirmed, n)
        | none => Except.error ("ValueError")
      else
        Except.ok (confirmed, 0)
  else
    Except.ok (confirmed, 0)

/-! ## E-mail extraction (`re.findall` model)

`handle_email_collection` and `handle_email_confirmation` both run
`re.findall(r"\b[A-Za-z0-9._%+-]+@[A-Za-z0-9.-]+\.[A-Za-z]{2,}\b", text,
re.IGNORECASE)`.  The scan below reproduces the engine's behaviour for
this pattern: left-to-right attempts, greedy character classes, the
backtracking search for the final dot-TLD split inside the greedy domain
run, and the word-boundary assertions at both ends.  Non-ASCII characters
are treated as non-word characters (faithful for the ASCII inputs
considered here). -/

/-- Regex `\w` (ASCII). -/
def isWordChar (c : Char) : Bool :=
  c.isAlpha || c.isDigit || c = '_'

/-- The local-part class `[A-Za-z0-9._%+-]`. -/
def isLocalChar (c : Char) : Bool :=
  c.isAlpha || c.isDigit || c = '.' || c = '_' || c = '%' || c = '+' || c = '-'

/-- The domain class `[A-Za-z0-9.-]`. -/
def isDomainChar (c : Char) : Bool :=
  c.isAlpha || c.isDigit || c = '.' || c = '-'

/-- Length of the greedy `[A-Za-z]{2,}` TLD run of `R` starting after a
candidate dot at index `k`. -/
def tldRunLen (R : List Char) (k : Nat) : Nat :=
  ((R.drop (k + 1)).takeWhile Char.isAlpha).length

/-- Does splitting the greedy domain run `R` at index `k` complete the
match?  Requires a literal dot at `k`, at least two letters after it, and
a word boundary after the letter run (`afterR` is the character following
`R` in the subject, if any).  Shrinking the greedy TLD run can never
repair a failed trailing boundary (the following character would then be
a letter), so only the maximal run is tested. -/
def domainSplitOk (R : List Char) (afterR : Option Char) (k : Nat) : Bool :=
  R.get? k = some '.' &&
  2 ≤ tldRunLen R k &&
  (match (if k + 1 + tldRunLen R k < R.length
          then R.get? (k + 1 + tldRunLen R k) else afterR) with
   | some c => !isWordChar c
   | none => true)

/-- Backtracking search for the domain split: the engine gives back
characters from the greedy domain run one at a time, so the largest
working dot index wins.  Tries `k, k-1, ..., 1`. -/
def findDomainSplit (R : List Char) (afterR : Option Char) : Nat → Option (Nat × Nat)
  | 0 => none
  | k + 1 =>
    if domainSplitOk R afterR (k + 1) then some (k + 1, tldRunLen R (k + 1))
    else findDomainSplit R afterR k

/-- Attempt to match the e-mail pattern at the current position.  `prev`
is the character before the position (`none` at the start of the
subject).  On success returns the matched characters, the remainder of
the subject after the match, and the last matched character (needed for
the continued scan's boundary checks). -/
def matchEmailAt (prev : Option Char) (l : List Char) :
    Option (List Char × List Char × Char) :=
  match l with
  | [] => none
  | c :: _ =>
    if isWordChar c = (match prev with
                       | some p => isWordChar p
                       | none => false) then none
    else if (l.takeWhile isLocalChar).isEmpty then none
    else
      match l.drop (l.takeWhile isLocalChar).length with
      | '@' :: afterAt =>
        match findDomainSplit (afterAt.takeWhile isDomainChar)
            ((afterAt.drop (afterAt.takeWhile isDomainChar).length).head?)
            ((afterAt.takeWhile isDomainChar).length - 1) with
        | some (k, t) =>
          some (l.takeWhile isLocalChar ++
                  '@' :: ((afterAt.takeWhile isDomainChar).take k ++
                    '.' :: (((afterAt.takeWhile isDomainChar).drop (k + 1)).take t)),
                l.drop ((l.takeWhile isLocalChar).length + 1 + k + 1 + t),
                (((afterAt.takeWhile isDomainChar).drop (k + 1)).take t).getLastD '.')
        | none => none
      | _ => none

/-- The `re.findall` scan: try each position left to right; on a match,
record it and continue immediately after it.  `fuel` bounds the
recursion (`l.length` suffices: every step consumes at least one
character). -/
def scanEmails (fuel : Nat) (prev : Option Char) (l : List Char) : List (List Char) :=
  match fuel with
  | 0 => []
  | fuel + 1 =>
    match l with
    | [] => []
    | c :: rest =>
      match matchEmailAt prev (c :: rest) with
      | some (m, remaining, lastc) => m :: scanEmails fuel (some lastc) remaining
      | none => scanEmails fuel (some c) rest

/-- `re.findall` of the e-mail pattern over a string. -/
def findEmails (s : String) : List String :=
  (scanEmails s.toList.length none s.toList).map String.mk

/-- `handle_email_collection`: regex-extract from the collected text,
falling back to the raw text, or to the placeholder when the input is
empty; store the result and activate the confirm-email node rendered for
it. -/
def handle_email_collection (raw_email_input : String) (st : StateStore) :
    StateStore × NodeRef :=
  match (if raw_email_input ≠ "" then findEmails raw_email_input else []) with
  | e :: _ =>
    (dictSet ("email") (PyVal.vStr (pyLower e)) st,
     NodeRef.confirmEmail (pyLower e))
  | [] =>
    if raw_email_input ≠ "" then
      (dictSet ("email") (PyVal.vStr raw_email_input) st,
       NodeRef.confirmEmail raw_email_input)
    else
      (dictSet ("email") (PyVal.vStr "placeholder@example.com") st,
       NodeRef.confirmEmail "placeholder@example.com")

/-- `handle_email_confirmation`. -/
def handle_email_confirmation (user_confirmed : Bool) (raw_correction_text : String)
    (st : StateStore) : StateStore × NodeRef :=
  if user_confirmed ∧ raw_correction_text = "" then
    (st, NodeRef.scheduleAppointment)
  else if raw_correction_text ≠ "" then
    match findEmails raw_correction_text with
    | e :: _ =>
      (dictSet ("email") (PyVal.vStr (pyLower e)) st,
       NodeRef.confirmEmail (pyLower e))
    | [] =>
      (st, NodeRef.confirmEmail
        (if getStrD st ("email") ("") ≠ "" then getStrD st ("email") ("")
         else "your.email@example.com"))
  else
    (st, NodeRef.confirmEmail
      (if getStrD st ("email") ("") ≠ "" then getStrD st ("email") ("")
       else "your.email@example.com"))

/-! ## Address parsing and validation

`handle_full_address_confirmation` parses the confirmed text with the
external `usaddress` tagger, reassembles the street line, maps the
parsed state name through a static lookup, and calls
`AddressValidator.validate_address`.  The tagger and the USPS HTTP
exchange are external; the handler is therefore parametrised by the
tagger outcome and by the validator's returned value, and
`validate_address` itself is modelled as a function of the service
response. -/

/-- Python `str.strip()` (whitespace at both ends). -/
def pyStrip (s : String) : String :=
  String.mk (stripWs s.toList)

/-- Outcome of `usaddress.tag(full_address_str)`: either the tagged
`OrderedDict` (as key/value pairs, keys unique), the `Ambiguous` address
type, or a raised `RepeatedLabelError`. -/
inductive TagOutcome where
  | tagged (pairs : List (String × String))
  | ambiguous
  | repeatedLabelError
deriving DecidableEq, Repr

/-- The normalized address assembled from the USPS response
(`validated_address` in the returned dict). -/
structure NormalizedAddress where
  street1 : String
  street2 : Option String
  city : String
  state : String
  zip5 : String
  zip4 : Option String
deriving DecidableEq, Repr

/-- The dict returned by `AddressValidator.validate_address`. -/
structure ValidationOutcome where
  status : String
  reason : String
  validated_address : Option NormalizedAddress
deriving DecidableEq, Repr

/-- The key/value entries of the returned Python dict.  Every return site
of `validate_address` builds a dict with exactly the three keys
`status`, `reason` and `validated_address`, so the dict is never empty. -/
def outcomeEntries (o : ValidationOutcome) : List (String × String) :=
  [("status", o.status), ("reason", o.reason),
   ("validated_address",
    match o.validated_address with
    | some _ => "dict"
    | none => "None")]

/-- Python truthiness of a dict: true iff non-empty. -/
def pyDictTruthy (d : List (String × String)) : Bool :=
  !d.isEmpty

/-- The observable outcome of the USPS HTTP exchange inside
`validate_address`: token acquisition failure, a 200 response (address
fields, `DPVConfirmation`, correction texts, DPV footnotes), a 400/401/
other status, a client error, or an unexpected exception. -/
inductive UspsResponse where
  | tokenFailure
  | success (addrFields : List (String × String)) (dpvConfirmation : Option String)
      (corrections : List String) (footnotes : Option String)
  | badRequest (errorMessages : List String)
  | unauthorized
  | otherStatus (code : Nat)
  | networkError (msg : String)
  | unexpectedError (msg : String)
deriving DecidableEq, Repr

/-- Optional-suffix helper for the `-zip4` piece of the address strings
compared inside `validate_address`. -/
def dashSuffix : Option String → String
  | some z => "-" ++ z
  | none => ""

/-- `AddressValidator.validate_address`, as a function of the request
fields and the service response. -/
def validate_address (street1 : String) (city : String) (state : String)
    (zip5 : String) (street2 : Option String) (zip4 : Option String)
    (resp : UspsResponse) : ValidationOutcome :=
  match resp with
  | UspsResponse.tokenFailure =>
    { status := "API_ERROR",
      reason := "Failed to obtain USPS API access token.",
      validated_address := none }
  | UspsResponse.success addrFields dpvConfirmation corrections footnotes =>
    let res_street1 := (addrFields.lookup ("streetAddress")).getD street1
    let res_street2 := (addrFields.lookup ("secondaryAddress")).getD
      (match street2 with | some s => s | none => "")
    let res_city := (addrFields.lookup ("city")).getD city
    let res_state := (addrFields.lookup ("state")).getD state
    let res_zip5 := (addrFields.lookup ("ZIPCode")).getD zip5
    let res_zip4 := (addrFields.lookup ("ZIPPlus4")).getD
      (match zip4 with | some z => z | none => "")
    let validated_addr_payload : NormalizedAddress :=
      { street1 := res_street1,
        street2 := if res_street2 = "" then none else some res_street2,
        city := res_city,
        state := res_state,
        zip5 := res_zip5,
        zip4 := if res_zip4 = "" then none else some res_zip4 }
    let dpv := dpvConfirmation.getD ("N")
    let input_addr_str := pyStrip (street1 ++ " " ++
      (match street2 with | some s => s | none => "") ++ ", " ++ city ++ ", " ++
      state ++ " " ++ zip5 ++ dashSuffix zip4)
    let output_addr_str := pyStrip (res_street1 ++ " " ++
      (if res_street2 = "" then "" else res_street2) ++ ", " ++ res_city ++ ", " ++
      res_state ++ " " ++ res_zip5 ++
      dashSuffix (if res_zip4 = "" then none else some res_zip4))
    if dpv = "Y" then
      if pyUpper input_addr_str ≠ pyUpper output_addr_str ∨ corrections ≠ [] then
        { status := "VALID_WITH_CHANGES",
          reason := "Address validated with corrections. " ++ corrections.headD (""),
          validated_address := some validated_addr_payload }
      else
        { status := "VALID",
          reason := "Address validated successfully.",
          validated_address := some validated_addr_payload }
    else if dpv = "S" then
      { status := "VALID_WITH_ISSUES",
        reason := "Address confirmed, but requires attention to the secondary address unit (e.g., apartment, suite). " ++
          corrections.headD ("Please verify the apartment or suite number."),
        validated_address := some validated_addr_payload }
    else if dpv = "D" then
      { status := "VALID_WITH_ISSUES",
        reason := "Address confirmed, but the primary street number is missing or invalid. " ++
          corrections.headD ("Please verify the street number."),
        validated_address := some validated_addr_payload }
    else if dpv = "N" then
      { status := "INVALID",
        reason := String.intercalate (" ")
          (["Address could not be validated as deliverable."] ++
           (match footnotes with
            | some fn => ["Footnotes: " ++ fn]
            | none => []) ++
           (match corrections with
            | c :: _ => ["Corrections: " ++ c]
            | [] => [])),
        validated_address := none }
    else
      { status := "UNKNOWN_DPV",
        reason := "Address validation returned an unhandled DPV status: " ++ dpv ++ ".",
        validated_address := some validated_addr_payload }
  | UspsResponse.badRequest errorMessages =>
    { status := "INVALID",
      reason :=
        (if errorMessages ≠ [] then
          "USPS API reported an issue with the address provided: " ++
            String.intercalate ("; ") errorMessages
         else "The address could not be found or was badly formatted."),
      validated_address := none }
  | UspsResponse.unauthorized =>
    { status := "API_ERROR",
      reason := "USPS API authorization failed. Please check credentials or token.",
      validated_address := none }
  | UspsResponse.otherStatus code =>
    { status := "API_ERROR",
      reason := "USPS API request failed with status " ++ toString code ++ ".",
      validated_address := none }
  | UspsResponse.networkError msg =>
    { status := "API_ERROR",
      reason := "Network error during address validation: " ++ msg,
      validated_address := none }
  | UspsResponse.unexpectedError msg =>
    { status := "ERROR",
      reason := "An unexpected error occurred: " ++ msg,
      validated_address := none }

/-- The `state_name_to_abbreviation` lookup table defined inside
`handle_full_address_confirmation` (keys are full state names in
lowercase; there are no entries for two-letter abbreviations). -/
def state_name_to_abbreviation : List (String × String) :=
  [("alabama", "AL"), ("alaska", "AK"), ("arizona", "AZ"), ("arkansas", "AR"),
   ("california", "CA"), ("colorado", "CO"), ("connecticut", "CT"),
   ("delaware", "DE"), ("florida", "FL"), ("georgia", "GA"), ("hawaii", "HI"),
   ("idaho", "ID"), ("illinois", "IL"), ("indiana", "IN"), ("iowa", "IA"),
   ("kansas", "KS"), ("kentucky", "KY"), ("louisiana", "LA"), ("maine", "ME"),
   ("maryland", "MD"), ("massachusetts", "MA"), ("michigan", "MI"),
   ("minnesota", "MN"), ("mississippi", "MS"), ("missouri", "MO"),
   ("montana", "MT"), ("nebraska", "NE"), ("nevada", "NV"),
   ("new hampshire", "NH"), ("new jersey", "NJ"), ("new mexico", "NM"),
   ("new york", "NY"), ("north carolina", "NC"), ("north dakota", "ND"),
   ("ohio", "OH"), ("oklahoma", "OK"), ("oregon", "OR"), ("pennsylvania", "PA"),
   ("rhode island", "RI"), ("south carolina", "SC"), ("south dakota", "SD"),
   ("tennessee", "TN"), ("texas", "TX"), ("utah", "UT"), ("vermont", "VT"),
   ("virginia", "VA"), ("washington", "WA"), ("west virginia", "WV"),
   ("wisconsin", "WI"), ("wyoming", "WY")]

/-- The street-line tags, in the fixed reassembly order used by the
handler. -/
def street_tags_ordered : List String :=
  [("AddressNumberPrefix"), ("AddressNumber"), ("AddressNumberSuffix"),
   ("StreetNamePreDirectional"), ("StreetNamePreModifier"), ("StreetNamePreType"),
   ("StreetName"), ("StreetNamePostType"), ("StreetNamePostModifier"),
   ("StreetNamePostDirectional"), ("SubaddressType"), ("SubaddressIdentifier")]

/-- The parse-and-validate tail of `handle_full_address_confirmation`
(everything from the `try` block on), applied to a confirmed address
string.  `tag` is the `usaddress.tag` outcome for that string and `val`
the value returned by the awaited `validate_address` call. -/
def processConfirmedAddress (full_address_str : String) (st : StateStore)
    (tag : TagOutcome) (val : ValidationOutcome) : StateStore × NodeRef :=
  if full_address_str = "" then
    (st, NodeRef.addressInvalidFormat)
  else
    match tag with
    | TagOutcome.repeatedLabelError => (st, NodeRef.addressInvalidFormat)
    | TagOutcome.ambiguous => (st, NodeRef.addressInvalidFormat)
    | TagOutcome.tagged pairs =>
      let street_address_line1 := String.intercalate (" ")
        (street_tags_ordered.filterMap (fun t => pairs.lookup t))
      let city_parsed := pairs.lookup ("PlaceName")
      let state_full_name_parsed := pairs.lookup ("StateName")
      let zip_parsed := pairs.lookup ("ZipCode")
      match state_full_name_parsed with
      | none => (st, NodeRef.addressInvalidFormat)
      | some sn =>
        if sn = "" then (st, NodeRef.addressInvalidFormat)
        else
          match state_name_to_abbreviation.lookup (pyLower sn) with
          | none => (st, NodeRef.addressInvalidFormat)
          | some state_abbreviation =>
            if street_address_line1 = "" ∨ city_parsed.getD ("") = "" ∨
               zip_parsed.getD ("") = "" then
              (st, NodeRef.addressInvalidFormat)
            else
              if pyDictTruthy (outcomeEntries val) then
                (dictSet ("address")
                  (PyVal.vAddr street_address_line1 (city_parsed.getD (""))
                    state_abbreviation (zip_parsed.getD (""))) st,
                 NodeRef.collectPhone)
              else
                (st, NodeRef.addressInvalidFull)

/-- `handle_full_address_confirmation`: the branch structure on
`(confirmed, corrected_spelling)` followed by parse-and-validate. -/
def handle_full_address_confirmation (confirmed : Bool) (corrected_spelling : String)
    (st : StateStore) (tag : TagOutcome) (val : ValidationOutcome) :
    StateStore × NodeRef :=
  if confirmed ∧ corrected_spelling = "" then
    processConfirmedAddress (getStrD st ("full_address") ("")) st tag val
  else if corrected_spelling ≠ "" then
    if confirmed then
      processConfirmedAddress corrected_spelling
        (dictSet ("full_address") (PyVal.vStr corrected_spelling) st) tag val
    else
      (dictSet ("full_address") (PyVal.vStr corrected_spelling) st,
       NodeRef.confirmFullAddress corrected_spelling)
  else
    (st, NodeRef.confirmFullAddress (getStrD st ("full_address") ("")))

/-! ## Appointment offers (`src/bot.py`)

`prepare_appointment_offer_message_handler` is the `pre_action` run on
every entry into the `offer_appointments` node;
`handle_appointment_choice` is the handler of the
`process_appointment_acceptance` function exposed by that node.  The
relevant context keys are modelled as a structure; the rendered task
message is abstracted into a tag carrying the offered slot. -/

/-- One slot of `AVAILABLE_APPOINTMENTS` in `bot.py`. -/
structure Appt where
  doctor : String
  day : String
  time : String
deriving DecidableEq, Repr

/-- The task message the pre-action writes into the context: either the
offer rendered for one slot, or the no-more-slots message. -/
inductive TaskMsg where
  | empty
  | offerSlot (a : Appt)
  | noMoreSlots
deriving DecidableEq, Repr

/-- The appointment-related slice of `flow_manager.context`. -/
structure ApptCtx where
  current_appointment_offer_index : Nat
  currently_offered_index : Int
  task_message : TaskMsg
  offering_now : Bool
  appointment : Option Appt
deriving DecidableEq, Repr

/-- The context right after `initialize_flow_context`
(`current_appointment_offer_index = 0`; the other keys are absent, so
their `.get` defaults apply). -/
def initialApptCtx : ApptCtx :=
  { current_appointment_offer_index := 0,
    currently_offered_index := -1,
    task_message := TaskMsg.empty,
    offering_now := false,
    appointment := none }

/-- `AVAILABLE_APPOINTMENTS` of `bot.py`. -/
def AVAILABLE_APPOINTMENTS : List Appt :=
  [{ doctor := "Dr. Smith", day := "Monday", time := "10:00 AM" },
   { doctor := "Dr. Jones", day := "Tuesday", time := "2:30 PM" },
   { doctor := "Dr. Lee", day := "Wednesday", time := "9:15 AM" },
   { doctor := "Dr. Brown", day := "Friday", time := "4:00 PM" }]

/-- `prepare_appointment_offer_message_handler`: offer the slot at the
current index and advance the stored next-offer index, or render the
no-more-slots message. -/
def prepare_appointment_offer (appts : List Appt) (c : ApptCtx) : ApptCtx :=
  match appts.get? c.current_appointment_offer_index with
  | some a =>
    { c with
      task_message := TaskMsg.offerSlot a,
      currently_offered_index := (c.current_appointment_offer_index : Int),
      current_appointment_offer_index := c.current_appointment_offer_index + 1,
      offering_now := true }
  | none =>
    { c with
      task_message := TaskMsg.noMoreSlots,
      currently_offered_index := -1,
      offering_now := false }

/-- `handle_appointment_choice`: `accepted` is the
`appointment_accepted` argument (`none` when it is neither `True` nor
`False`).  Returns the new context and the `next_node_override`. -/
def handle_appointment_choice (appts : List Appt) (accepted : Option Bool)
    (c : ApptCtx) : ApptCtx × String :=
  if 0 ≤ c.currently_offered_index ∧
     c.currently_offered_index < (appts.length : Int) then
    match accepted with
    | some true =>
      ({ c with appointment := appts.get? c.currently_offered_index.toNat },
       "conclude_conversation")
    | some false => (c, "offer_appointments")
    | none =>
      ({ c with
         current_appointment_offer_index := c.currently_offered_index.toNat },
       "offer_appointments")
  else
    ({ c with current_appointment_offer_index := 0 }, "offer_appointments")

/-- The functions exposed by the `offer_appointments` node configuration
in `bot.py` — a static list, independent of the context. -/
def offer_appointments_functions : List String :=
  [("process_appointment_acceptance"), ("no_appointment_found_or_all_declined")]

/-- Run a sequence of offer rounds (each: entry pre-action, then one
`process_appointment_acceptance` call with the given
`appointment_accepted` value), collecting the
`_currently_offered_appointment_index` visible at each entry. -/
def run_offer_rounds (appts : List Appt) : List (Option Bool) → ApptCtx → List Int
  | [], _ => []
  | ch :: rest, c =>
    let c1 := prepare_appointment_offer appts c
    let c2 := (handle_appointment_choice appts ch c1).1
    c1.currently_offered_index :: run_offer_rounds appts rest c2

/-- The offered-index sequence of a session that starts fresh and reacts
to each offer with the given responses. -/
def offered_sequence (appts : List Appt) (chs : List (Option Bool)) : List Int :=
  run_offer_rounds appts chs initialApptCtx

/-- The context at the third entry into `offer_appointments` after two
declines, for a two-slot list. -/
def third_entry_ctx (a b : Appt) : ApptCtx :=
  prepare_appointment_offer [a, b]
    ((handle_appointment_choice [a, b] (some false)
      (prepare_appointment_offer [a, b]
        ((handle_appointment_choice [a, b] (some false)
          (prepare_appointment_offer [a, b] initialApptCtx)).1))).1)

/-! ## Concrete scenario data -/

/-- Scenario C input address (also the example format quoted by the
`collect_full_address` and `address_invalid_format` node prompts). -/
def scenarioCAddress : String :=
  "123 Main Street, New York, NY 10001"

/-- Modelled from the spec: the external `usaddress` tagger output for
the Scenario C address, as recorded by the spec
(`street="123 Main Street", city="New York", state="NY", zip="10001"`).
`usaddress` is a third-party library, not part of this repository. -/
def scenarioCTag : List (String × String) :=
  [("AddressNumber", "123"), ("StreetName", "Main"),
   ("StreetNamePostType", "Street"), ("PlaceName", "New York"),
   ("StateName", "NY"), ("ZipCode", "10001")]

/-- A state store holding the confirmed Scenario C address. -/
def scenarioCState : StateStore :=
  [("full_address", PyVal.vStr scenarioCAddress)]

/-- A well-formed address whose state appears under its full name, so
that parsing succeeds end to end. -/
def oakAddress : String :=
  "456 Oak Avenue, Springfield, Illinois 62704"

/-- Modelled from the spec: the external `usaddress` tagger output for
`oakAddress` (component tagger assigning substrings to roles, as
described in the spec). -/
def oakTag : List (String × String) :=
  [("AddressNumber", "456"), ("StreetName", "Oak"),
   ("StreetNamePostType", "Avenue"), ("PlaceName", "Springfield"),
   ("StateName", "Illinois"), ("ZipCode", "62704")]

/-- A state store holding the confirmed `oakAddress`. -/
def oakState : StateStore :=
  [("full_address", PyVal.vStr oakAddress)]

/-- The `address` entry the handler commits for `oakTag`. -/
def oakCommitted : PyVal :=
  PyVal.vAddr "456 Oak Avenue" "Springfield" "IL" "62704"

/-! ## Helper lemmas -/

/-- Looking up a key right after setting it returns the new value. -/
theorem dictGet_dictSet_self (k : String) (v : PyVal) (st : StateStore) :
    dictGet k (dictSet k v st) = some v := by
  induction st with
  | nil => simp [dictSet, dictGet]
  | cons p rest ih =>
    obtain ⟨k', v'⟩ := p
    by_cases h : k' = k
    · simp [dictSet, dictGet, h]
    · simp [dictSet, dictGet, h, ih]

/-- `getStrD` of a freshly set string field. -/
theorem getStrD_dictSet_self (k : String) (s : String) (st : StateStore) (d : String) :
    getStrD (dictSet k (PyVal.vStr s) st) k d = s := by
  simp [getStrD, dictGet_dictSet_self]

/-- Lowercasing never produces an ASCII uppercase letter. -/
theorem pyLowerChar_no_upper (c : Char) : isUpperAscii (pyLowerChar c) = false := by
  unfold pyLowerChar isUpperAscii
  cases h : asciiCasePairs.find? (fun p => p.1 = c) with
  | none => simp [h]
  | some p =>
    have hp : p ∈ asciiCasePairs := List.mem_of_find?_eq_some h
    have hall : ∀ q ∈ asciiCasePairs,
        (asciiCasePairs.find? (fun r => r.1 = q.2)).isSome = false := by decide
    simpa using hall p hp

/-- A lowered string has no ASCII uppercase letter. -/
theorem pyLower_noUpper (s : String) : noUpper (pyLower s) := by
  intro c hc
  have hc' : c ∈ s.toList.map pyLowerChar := hc
  obtain ⟨a, _, rfl⟩ := List.mem_map.mp hc'
  exact pyLowerChar_no_upper a

/-- An ASCII digit is not an `int()`-strippable whitespace character. -/
theorem pyIsSpace_eq_false_of_isDigit (c : Char) (hc : c.isDigit = true) :
    pyIsSpace c = false := by
  by_cases h1 : c = ' '
  · exact absurd (h1 ▸ hc) (by decide)
  by_cases h2 : c = '\t'
  · exact absurd (h2 ▸ hc) (by decide)
  by_cases h3 : c = '\n'
  · exact absurd (h3 ▸ hc) (by decide)
  by_cases h4 : c = '\r'
  · exact absurd (h4 ▸ hc) (by decide)
  by_cases h5 : c = '\x0b'
  · exact absurd (h5 ▸ hc) (by decide)
  by_cases h6 : c = '\x0c'
  · exact absurd (h6 ▸ hc) (by decide)
  simp [pyIsSpace, h1, h2, h3, h4, h5, h6]

/-- `dropWhile` is the identity when no element satisfies the predicate. -/
theorem dropWhile_eq_self_of_all (p : Char → Bool) (l : List Char)
    (h : ∀ c ∈ l, p c = false) : l.dropWhile p = l := by
  cases l with
  | nil => rfl
  | cons c rest => simp [List.dropWhile, h c (by simp)]

/-- Stripping whitespace from an all-digit list changes nothing. -/
theorem stripWs_of_digits (l : List Char) (h : ∀ c ∈ l, c.isDigit = true) :
    stripWs l = l := by
  unfold stripWs
  rw [dropWhile_eq_self_of_all _ l
        (fun c hc => pyIsSpace_eq_false_of_isDigit c (h c hc)),
      dropWhile_eq_self_of_all _ l.reverse
        (fun c hc =>
          pyIsSpace_eq_false_of_isDigit c (h c (List.mem_reverse.mp hc))),
      List.reverse_reverse]

/-- `parseIntRest` succeeds on an all-digit tail, folding up the value. -/
theorem parseIntRest_digits (l : List Char) (acc : Nat)
    (h : ∀ c ∈ l, c.isDigit = true) :
    parseIntRest acc false l =
      some (l.foldl (fun a c => a * 10 + digitVal c) acc) := by
  induction l generalizing acc with
  | nil => rfl
  | cons c rest ih =>
    have hc : c.isDigit = true := h c (by simp)
    simp [parseIntRest, hc, ih (acc * 10 + digitVal c) (fun d hd => h d (by simp [hd]))]

/-- `parseIntDigits` succeeds on a non-empty all-digit list. -/
theorem parseIntDigits_digits (l : List Char) (hne : l ≠ [])
    (h : ∀ c ∈ l, c.isDigit = true) :
    parseIntDigits l = some (digitsToNat l) := by
  cases l with
  | nil => exact absurd rfl hne
  | cons c rest =>
    have hc : c.isDigit = true := h c (by simp)
    simp [parseIntDigits, hc, digitsToNat,
      parseIntRest_digits rest (digitVal c) (fun d hd => h d (by simp [hd]))]

/-- Python `int()` succeeds on a non-empty string of ASCII digits. -/
theorem pyIntParse_digits (l : List Char) (hne : l ≠ [])
    (h : ∀ c ∈ l, c.isDigit = true) :
    pyIntParse (String.mk l) = some (Int.ofNat (digitsToNat l)) := by
  unfold pyIntParse
  have hs : (String.mk l).toList = l := rfl
  rw [hs, stripWs_of_digits l h]
  cases l with
  | nil => exact absurd rfl hne
  | cons c rest =>
    have hc : c.isDigit = true := h c (by simp)
    have hplus : ¬(c = '+') := fun he => absurd (he ▸ hc) (by decide)
    have hminus : ¬(c = '-') := fun he => absurd (he ▸ hc) (by decide)
    simp [hplus, hminus, parseIntDigits_digits (c :: rest) hne h]

/-- `confirm_payer_id` applies exactly the `collect_payer_id` conversion
to a truthy correction (and returns 0 for a falsy one, which is also
what the conversion yields on the empty string). -/
theorem confirm_payer_id_eq_collect (b : Bool) (s : String) :
    confirm_payer_id b s = (collect_payer_id s).map (fun n => (b, n)) := by
  by_cases hs : s = ""
  · subst hs; rfl
  · unfold confirm_payer_id collect_payer_id
    rw [if_pos hs]
    cases hp : pyIntParse (remove_spaces s) with
    | some n => rfl
    | none =>
      by_cases hn : String.mk (s.toList.filter pyIsDigit) ≠ ""
      · simp only [if_pos hn]
        cases hq : pyIntParse (String.mk (s.toList.filter pyIsDigit)) <;> rfl
      · simp only [if_neg hn]; rfl

/-- As long as every response is a decline and a slot is still available
to offer, the offered-index sequence starting from next-offer index `i`
is `i, i+1, ...`: each entry offers the slot at the stored index and
advances it, and a decline neither rewinds nor repeats. -/
theorem run_offer_rounds_declines (appts : List Appt) (k : Nat) :
    ∀ (c : ApptCtx), c.current_appointment_offer_index + k ≤ appts.length →
      run_offer_rounds appts (List.replicate k (some false)) c =
        (List.range' c.current_appointment_offer_index k).map (Nat.cast : Nat → Int) := by
  induction k with
  | zero => intro c _; rfl
  | succ k ih =>
    intro c hk
    have hlt : c.current_appointment_offer_index < appts.length := by omega
    obtain ⟨a, ha⟩ : ∃ a, appts.get? c.current_appointment_offer_index = some a :=
      ⟨appts.get ⟨c.current_appointment_offer_index, hlt⟩, List.get?_eq_get hlt⟩
    simp only [List.replicate_succ, run_offer_rounds]
    rw [show prepare_appointment_offer appts c =
        { c with
          task_message := TaskMsg.offerSlot a,
          currently_offered_index := (c.current_appointment_offer_index : Int),
          current_appointment_offer_index := c.current_appointment_offer_index + 1,
          offering_now := true } by
      unfold prepare_appointment_offer
      rw [ha]]
    have hcond : (0 : Int) ≤ (c.current_appointment_offer_index : Int) ∧
        (c.current_appointment_offer_index : Int) < (appts.length : Int) := by
      constructor <;> omega
    rw [show handle_appointment_choice appts (some false)
        { c with
          task_message := TaskMsg.offerSlot a,
          currently_offered_index := (c.current_appointment_offer_index : Int),
          current_appointment_offer_index := c.current_appointment_offer_index + 1,
          offering_now := true } =
        ({ c with
          task_message := TaskMsg.offerSlot a,
          currently_offered_index := (c.current_appointment_offer_index : Int),
          current_appointment_offer_index := c.current_appointment_offer_index + 1,
          offering_now := true }, "offer_appointments") by
      unfold handle_appointment_choice
      rw [if_pos hcond]]
    rw [ih _ (by simp; omega)]
    simp [List.range'_succ]

/-! ## Claim theorems -/

/-- Claim C10: when the email collection handler receives an empty (or
missing, which the source defaults to empty) email argument, it neither
errors nor re-prompts: it commits the fabricated candidate
`"placeholder@example.com"` to the state store and activates the
confirm-email node rendered for that placeholder. -/
theorem c10_empty_email_stores_placeholder (st : StateStore) :
    handle_email_collection "" st =
      (dictSet ("email") (PyVal.vStr "placeholder@example.com") st,
       NodeRef.confirmEmail "placeholder@example.com") := rfl

/-- Claim C9: every email committed through the regex-extraction path —
both the initial collection and the correction re-scan — is the first
regex match of the input converted to lowercase, so it never contains an
ASCII uppercase letter; and when no match exists, only the collection
handler's raw-text fallback (which stores the input verbatim) can commit
mixed case. -/
theorem c9_regex_path_stores_lowercased_first_match (raw : String)
    (st : StateStore) (e : String) (es : List String)
    (hfind : findEmails raw = e :: es) :
    handle_email_collection raw st =
      (dictSet ("email") (PyVal.vStr (pyLower e)) st,
       NodeRef.confirmEmail (pyLower e)) ∧
    (∀ b : Bool, handle_email_confirmation b raw st =
      (dictSet ("email") (PyVal.vStr (pyLower e)) st,
       NodeRef.confirmEmail (pyLower e))) ∧
    noUpper (pyLower e) := by
  have hraw : raw ≠ "" := by
    intro h
    subst h
    rw [show findEmails "" = [] from rfl] at hfind
    cases hfind
  refine ⟨?_, fun b => ?_, pyLower_noUpper e⟩
  · unfold handle_email_collection
    rw [if_pos hraw, hfind]
  · unfold handle_email_confirmation
    rw [if_neg (fun h => hraw h.2), if_pos hraw, hfind]

/-- Witness for C9 at a concrete mixed-case input. -/
theorem c9_regex_path_witness :
    findEmails "Reach me at John.Doe@Example.COM thanks" =
      ["John.Doe@Example.COM"] ∧
    handle_email_collection "Reach me at John.Doe@Example.COM thanks" [] =
      ([("email", PyVal.vStr "john.doe@example.com")],
       NodeRef.confirmEmail "john.doe@example.com") := by
  refine ⟨rfl, ?_⟩
  exact (c9_regex_path_stores_lowercased_first_match
    "Reach me at John.Doe@Example.COM thanks" [] "John.Doe@Example.COM" [] rfl).1

/-- Counterexample to claim C8 as stated: the payer-id handlers are not
total on arbitrary strings.  For the input `"²"` (U+00B2), Python
`str.isdigit` is true while `int()` rejects it, so the unprotected
fallback `int("".join(filter(str.isdigit, ...)))` raises `ValueError`
out of both handlers. -/
theorem c8_superscript_digit_raises :
    collect_payer_id ("²") = Except.error ("ValueError") ∧
    confirm_payer_id true ("²") = Except.error ("ValueError") :=
  ⟨rfl, rfl⟩

/-- Claim C8 (amended): on inputs whose `isdigit` characters are all
decimal digits (in particular on all plain ASCII input), the payer-id
handlers are total and never raise: if stripping spaces yields a Python
integer literal that integer is stored; otherwise the digits of the
input are concatenated and their decimal value is stored; and if the
input contains no digit at all the stored payer id silently defaults
to 0.  `confirm_payer_id` applies the identical conversion to a truthy
correction. -/
theorem c8_payer_id_conversion_total (s : String)
    (hdec : ∀ c ∈ s.toList, pyIsDigit c = true → c.isDigit = true) :
    (∃ n : Int, collect_payer_id s = Except.ok n) ∧
    (∀ n : Int, pyIntParse (remove_spaces s) = some n →
      collect_payer_id s = Except.ok n) ∧
    (pyIntParse (remove_spaces s) = none → s.toList.filter pyIsDigit ≠ [] →
      collect_payer_id s =
        Except.ok (Int.ofNat (digitsToNat (s.toList.filter pyIsDigit)))) ∧
    (pyIntParse (remove_spaces s) = none → s.toList.filter pyIsDigit = [] →
      collect_payer_id s = Except.ok 0) ∧
    (∀ b : Bool, ∃ r, confirm_payer_id b s = Except.ok r) := by
  have hok : ∃ n : Int, collect_payer_id s = Except.ok n ∧
      (∀ m : Int, pyIntParse (remove_spaces s) = some m → n = m) ∧
      (pyIntParse (remove_spaces s) = none → s.toList.filter pyIsDigit ≠ [] →
        n = Int.ofNat (digitsToNat (s.toList.filter pyIsDigit))) ∧
      (pyIntParse (remove_spaces s) = none → s.toList.filter pyIsDigit = [] →
        n = 0) := by
    cases hp : pyIntParse (remove_spaces s) with
    | some m =>
      refine ⟨m, ?_, ?_, ?_, ?_⟩
      · unfold collect_payer_id; rw [hp]
      · intro m' hm'; exact Option.some.inj hm'
      · intro h; exact Option.noConfusion h
      · intro h; exact Option.noConfusion h
    | none =>
      by_cases hf : s.toList.filter pyIsDigit = []
      · refine ⟨0, ?_, ?_, ?_, fun _ _ => rfl⟩
        · unfold collect_payer_id
          rw [hp, hf]
          rfl
        · intro m' hm'; exact Option.noConfusion hm'
        · intro _ hne; exact absurd hf hne
      · have hdig : ∀ c ∈ s.toList.filter pyIsDigit, c.isDigit = true := by
          intro c hc
          exact hdec c (List.mem_of_mem_filter hc) (List.of_mem_filter hc)
        have hne : String.mk (s.toList.filter pyIsDigit) ≠ "" := by
          intro h
          exact hf (congrArg String.data h)
        refine ⟨Int.ofNat (digitsToNat (s.toList.filter pyIsDigit)), ?_, ?_,
          fun _ _ => rfl, ?_⟩
        · unfold collect_payer_id
          rw [hp, if_pos hne, pyIntParse_digits _ hf hdig]
        · intro m' hm'; exact Option.noConfusion hm'
        · intro _ hemp; exact absurd hemp hf
  obtain ⟨n, hcoll, hsome, hdigits, hzero⟩ := hok
  refine ⟨⟨n, hcoll⟩, ?_, ?_, ?_, ?_⟩
  · intro m hm; rw [hcoll, hsome m hm]
  · intro hnone hne; rw [hcoll, hdigits hnone hne]
  · intro hnone hemp; rw [hcoll, hzero hnone hemp]
  · intro b
    refine ⟨(b, n), ?_⟩
    rw [confirm_payer_id_eq_collect, hcoll]
    rfl

/-- Witness for C8 (amended) at a concrete ASCII input containing
letters, spaces and digits. -/
theorem c8_payer_id_conversion_witness :
    (∀ c ∈ ("AB-12 34").toList, pyIsDigit c = true → c.isDigit = true) ∧
    collect_payer_id ("AB-12 34") = Except.ok 1234 := by
  refine ⟨by decide, ?_⟩
  have h := (c8_payer_id_conversion_total ("AB-12 34") (by decide)).2.2.1
  exact h (by decide) (by decide)

/-- Claim C7: for every field's confirm handler, a result with
`confirmed=false` and an empty correction leaves the state store
completely unchanged, and the next active node is the same confirm node
re-rendered from the value currently held in the state store.  The
hypotheses say that the field's value is held in the store (every
collection handler stores it before its confirm node can be active), and
— for the email field — that the held value is non-empty (every value the
email handlers store is non-empty, including the placeholder fallbacks). -/
theorem c7_unconfirmed_empty_correction_is_noop (st : StateStore)
    (fn ln pn pf pl fa em : String) (pid : Int) (tag : TagOutcome)
    (val : ValidationOutcome)
    (h1 : dictGet ("first_name") st = some (PyVal.vStr fn))
    (h2 : dictGet ("last_name") st = some (PyVal.vStr ln))
    (h3 : dictGet ("payer_name") st = some (PyVal.vStr pn))
    (h4 : dictGet ("payer_id") st = some (PyVal.vInt pid))
    (h5 : dictGet ("physician_first_name") st = some (PyVal.vStr pf))
    (h6 : dictGet ("physician_last_name") st = some (PyVal.vStr pl))
    (h7 : dictGet ("full_address") st = some (PyVal.vStr fa))
    (h8 : dictGet ("email") st = some (PyVal.vStr em))
    (h9 : em ≠ "") :
    handle_first_name_confirmation false "" st = (st, NodeRef.confirmFirstName fn) ∧
    handle_last_name_confirmation false "" st = (st, NodeRef.confirmLastName ln) ∧
    handle_payer_name_confirmation false "" st = (st, NodeRef.confirmPayerName pn) ∧
    handle_payer_id_confirmation false 0 st = (st, NodeRef.confirmPayerId pid) ∧
    handle_physician_first_name_confirmation false "" st =
      (st, NodeRef.confirmPhysicianFirstName pf) ∧
    handle_physician_last_name_confirmation false "" st =
      (st, NodeRef.confirmPhysicianLastName pl) ∧
    handle_full_address_confirmation false "" st tag val =
      (st, NodeRef.confirmFullAddress fa) ∧
    handle_email_confirmation false "" st = (st, NodeRef.confirmEmail em) := by
  refine ⟨?_, ?_, ?_, ?_, ?_, ?_, ?_, ?_⟩
  · simp [handle_first_name_confirmation, getStrD, h1]
  · simp [handle_last_name_confirmation, getStrD, h2]
  · simp [handle_payer_name_confirmation, getStrD, h3]
  · simp [handle_payer_id_confirmation, getIntD, h4]
  · simp [handle_physician_first_name_confirmation, getStrD, h5]
  · simp [handle_physician_last_name_confirmation, getStrD, h6]
  · simp [handle_full_address_confirmation, getStrD, h7]
  · simp [handle_email_confirmation, getStrD, h8, h9]

/-- Witness for C7 at a concrete fully-populated store. -/
theorem c7_unconfirmed_empty_correction_witness :
    handle_first_name_confirmation false ""
        [("first_name", PyVal.vStr "asad"), ("last_name", PyVal.vStr "smith"),
         ("payer_name", PyVal.vStr "aetna"), ("payer_id", PyVal.vInt 42),
         ("physician_first_name", PyVal.vStr "maria"),
         ("physician_last_name", PyVal.vStr "lopez"),
         ("full_address", PyVal.vStr oakAddress),
         ("email", PyVal.vStr "a@b.co")] =
      ([("first_name", PyVal.vStr "asad"), ("last_name", PyVal.vStr "smith"),
        ("payer_name", PyVal.vStr "aetna"), ("payer_id", PyVal.vInt 42),
        ("physician_first_name", PyVal.vStr "maria"),
        ("physician_last_name", PyVal.vStr "lopez"),
        ("full_address", PyVal.vStr oakAddress),
        ("email", PyVal.vStr "a@b.co")],
       NodeRef.confirmFirstName "asad") ∧
    handle_email_confirmation false ""
        [("first_name", PyVal.vStr "asad"), ("last_name", PyVal.vStr "smith"),
         ("payer_name", PyVal.vStr "aetna"), ("payer_id", PyVal.vInt 42),
         ("physician_first_name", PyVal.vStr "maria"),
         ("physician_last_name", PyVal.vStr "lopez"),
         ("full_address", PyVal.vStr oakAddress),
         ("email", PyVal.vStr "a@b.co")] =
      ([("first_name", PyVal.vStr "asad"), ("last_name", PyVal.vStr "smith"),
        ("payer_name", PyVal.vStr "aetna"), ("payer_id", PyVal.vInt 42),
        ("physician_first_name", PyVal.vStr "maria"),
        ("physician_last_name", PyVal.vStr "lopez"),
        ("full_address", PyVal.vStr oakAddress),
        ("email", PyVal.vStr "a@b.co")],
       NodeRef.confirmEmail "a@b.co") := by
  have h := c7_unconfirmed_empty_correction_is_noop
    [("first_name", PyVal.vStr "asad"), ("last_name", PyVal.vStr "smith"),
     ("payer_name", PyVal.vStr "aetna"), ("payer_id", PyVal.vInt 42),
     ("physician_first_name", PyVal.vStr "maria"),
     ("physician_last_name", PyVal.vStr "lopez"),
     ("full_address", PyVal.vStr oakAddress),
     ("email", PyVal.vStr "a@b.co")]
    "asad" "smith" "aetna" "maria" "lopez" oakAddress "a@b.co" 42
    TagOutcome.ambiguous
    (validate_address "" "" "" "" none none UspsResponse.tokenFailure)
    rfl rfl rfl rfl rfl rfl rfl rfl (by decide)
  exact ⟨h.1, h.2.2.2.2.2.2.2⟩

/-- Counterexample to claim C2 as stated: for the first-name confirm
handler, a result carrying `confirmed=true` together with the non-empty
correction `"A S A T"` does not give the correction precedence — the
handler transitions forward to last-name collection with the state
unchanged, instead of overwriting the scratch value and re-entering the
confirm node rendered for `"asat"`. -/
theorem c2_confirmed_with_correction_counterexample :
    handle_first_name_confirmation true "A S A T"
        [("first_name", PyVal.vStr "asad")] =
      ([("first_name", PyVal.vStr "asad")], NodeRef.collectLastName) ∧
    NodeRef.collectLastName ≠
      NodeRef.confirmFirstName (spaced_letters_to_word ("A S A T")) :=
  ⟨rfl, by decide⟩

/-- Claim C2 (amended): when `confirmed=true` arrives together with a
non-empty correction, only the email confirm handler gives the
correction precedence (its behaviour is then identical to the
`confirmed=false` case: re-scan the correction and re-enter the confirm
node); the full-address handler overwrites the scratch value with the
correction but proceeds directly to parsing/validation, exactly as if
the corrected address had been confirmed; and the first-name, last-name,
payer-name, payer-id and physician-name handlers ignore the correction
entirely and transition forward with the old committed value. -/
theorem c2_correction_precedence_by_field (st : StateStore) (c : String)
    (n : Int) (tag : TagOutcome) (val : ValidationOutcome) (hc : c ≠ "") :
    handle_first_name_confirmation true c st = (st, NodeRef.collectLastName) ∧
    handle_last_name_confirmation true c st = (st, NodeRef.collectPayerName) ∧
    handle_payer_name_confirmation true c st = (st, NodeRef.collectPayerId) ∧
    handle_payer_id_confirmation true n st = (st, NodeRef.checkReferral) ∧
    handle_physician_first_name_confirmation true c st =
      (st, NodeRef.collectPhysicianLastName) ∧
    handle_physician_last_name_confirmation true c st =
      (st, NodeRef.collectComplaint) ∧
    handle_email_confirmation true c st = handle_email_confirmation false c st ∧
    handle_full_address_confirmation true c st tag val =
      handle_full_address_confirmation true ""
        (dictSet ("full_address") (PyVal.vStr c) st) tag val := by
  refine ⟨rfl, rfl, rfl, rfl, rfl, rfl, ?_, ?_⟩
  · unfold handle_email_confirmation
    rw [if_neg (show ¬(true = true ∧ c = "") from fun h => hc h.2),
        if_neg (show ¬(false = true ∧ c = "") from fun h => hc h.2)]
  · have hL : handle_full_address_confirmation true c st tag val =
        processConfirmedAddress c
          (dictSet ("full_address") (PyVal.vStr c) st) tag val := by
      unfold handle_full_address_confirmation
      rw [if_neg (show ¬(true = true ∧ c = "") from fun h => hc h.2), if_pos hc]
      rfl
    have hR : handle_full_address_confirmation true ""
        (dictSet ("full_address") (PyVal.vStr c) st) tag val =
        processConfirmedAddress
          (getStrD (dictSet ("full_address") (PyVal.vStr c) st)
            ("full_address") (""))
          (dictSet ("full_address") (PyVal.vStr c) st) tag val := rfl
    rw [hL, hR, getStrD_dictSet_self]

/-- Witness for C2 (amended) at a concrete non-empty correction. -/
theorem c2_correction_precedence_witness :
    ("A S A T" : String) ≠ "" ∧
    handle_first_name_confirmation true "A S A T"
        [("first_name", PyVal.vStr "asad")] =
      ([("first_name", PyVal.vStr "asad")], NodeRef.collectLastName) :=
  ⟨by decide,
   (c2_correction_precedence_by_field [("first_name", PyVal.vStr "asad")]
      "A S A T" 7 TagOutcome.ambiguous
      (validate_address "" "" "" "" none none UspsResponse.tokenFailure)
      (by decide)).1⟩

/-- Claim C1 (code bug): the outcome of the external validation call does
NOT decide the route.  `handle_full_address_confirmation` binds the dict
returned by `validate_address` to `is_valid` and branches on its Python
truthiness; since every return site of `validate_address` builds a
three-key dict, the condition is true for every outcome — the handler
commits the as-typed parsed address (not the service's normalized
values) and activates phone collection for VALID, VALID_WITH_CHANGES,
INVALID, AMBIGUOUS, API_ERROR and ERROR alike, and the
`address_invalid_full` branch is unreachable dead code. -/
theorem c1_validator_status_ignored (out : ValidationOutcome) :
    handle_full_address_confirmation true "" oakState
        (TagOutcome.tagged oakTag) out =
      (dictSet ("address") oakCommitted oakState, NodeRef.collectPhone) ∧
    pyDictTruthy (outcomeEntries out) = true :=
  ⟨rfl, rfl⟩

/-- Claim C3 (code bug): Scenario C fails on the code.  For the full
address `"123 Main Street, New York, NY 10001"` — the very example the
node prompts quote — the tagger yields `state="NY"`, but the
`state_name_to_abbreviation` lookup contains only full state names
(`"new york"` is a key, `"ny"` is not), so the handler routes to the
`address_invalid_format` recovery node without committing anything, even
when the validation service would have returned VALID. -/
theorem c3_scenario_c_rejected_by_state_lookup :
    handle_full_address_confirmation true "" scenarioCState
        (TagOutcome.tagged scenarioCTag)
        (validate_address "123 Main Street" "New York" "NY" "10001" none none
          (UspsResponse.success [] (some "Y") [] none)) =
      (scenarioCState, NodeRef.addressInvalidFormat) ∧
    (validate_address "123 Main Street" "New York" "NY" "10001" none none
        (UspsResponse.success [] (some "Y") [] none)).status = "VALID" ∧
    state_name_to_abbreviation.lookup (pyLower ("NY")) = none ∧
    state_name_to_abbreviation.lookup ("new york") = some "NY" :=
  ⟨rfl, rfl, rfl, rfl⟩

/-- Counterexample to claim C4 as stated: when the validation service
returns API_ERROR, the address is committed as typed and the next node
is phone collection, but no "validation skipped" marker is written
anywhere in the session state — the resulting store is exhibited in
full and holds exactly the `full_address` and `address` entries. -/
theorem c4_no_validation_skipped_marker :
    validate_address "456 Oak Avenue" "Springfield" "IL" "62704" none none
        UspsResponse.tokenFailure =
      { status := "API_ERROR",
        reason := "Failed to obtain USPS API access token.",
        validated_address := none } ∧
    handle_full_address_confirmation true "" oakState (TagOutcome.tagged oakTag)
        (validate_address "456 Oak Avenue" "Springfield" "IL" "62704" none none
          UspsResponse.tokenFailure) =
      ([("full_address", PyVal.vStr oakAddress), ("address", oakCommitted)],
       NodeRef.collectPhone) :=
  ⟨rfl, rfl⟩

/-- Claim C4 (amended): when the address-validation service returns
API_ERROR (credentials unavailable, auth failure, network error, any
non-200/400 status), the address is committed to the state store as
typed and the next active node is phone collection with no user-visible
retry loop; however no internal "validation skipped" marker is set — the
handler's only mutation is the `address` entry. -/
theorem c4_api_error_commits_as_typed (resp : UspsResponse) (st : StateStore)
    (s : String)
    (hfa : dictGet ("full_address") st = some (PyVal.vStr s)) (hs : s ≠ "")
    (_hstatus : (validate_address "456 Oak Avenue" "Springfield" "IL" "62704"
        none none resp).status = "API_ERROR") :
    handle_full_address_confirmation true "" st (TagOutcome.tagged oakTag)
        (validate_address "456 Oak Avenue" "Springfield" "IL" "62704" none none
          resp) =
      (dictSet ("address") oakCommitted st, NodeRef.collectPhone) := by
  have h1 : handle_full_address_confirmation true "" st (TagOutcome.tagged oakTag)
      (validate_address "456 Oak Avenue" "Springfield" "IL" "62704" none none
        resp) =
      processConfirmedAddress (getStrD st ("full_address") ("")) st
        (TagOutcome.tagged oakTag)
        (validate_address "456 Oak Avenue" "Springfield" "IL" "62704" none none
          resp) := rfl
  have h2 : getStrD st ("full_address") ("") = s := by
    simp [getStrD, hfa]
  rw [h1, h2]
  unfold processConfirmedAddress
  rw [if_neg hs]
  rfl

/-- Witness for C4 (amended): a token-acquisition failure, which yields
status API_ERROR. -/
theorem c4_api_error_commits_witness :
    dictGet ("full_address") oakState = some (PyVal.vStr oakAddress) ∧
    oakAddress ≠ "" ∧
    (validate_address "456 Oak Avenue" "Springfield" "IL" "62704" none none
        UspsResponse.tokenFailure).status = "API_ERROR" ∧
    handle_full_address_confirmation true "" oakState (TagOutcome.tagged oakTag)
        (validate_address "456 Oak Avenue" "Springfield" "IL" "62704" none none
          UspsResponse.tokenFailure) =
      (dictSet ("address") oakCommitted oakState, NodeRef.collectPhone) :=
  ⟨rfl, by decide, rfl,
   c4_api_error_commits_as_typed UspsResponse.tokenFailure oakState oakAddress
     rfl (by decide) rfl⟩

/-- Counterexample to claim C5 as stated: previously offered indices ARE
offered again.  With two slots, an ambiguous response to the first offer
makes the next entry re-offer index 0 (the ambiguous path rewinds the
next-offer index), and on an all-decline run the fourth entry re-offers
index 0 after the no-more-slots entry, because a choice call with
nothing offered takes the internal-inconsistency recovery, which resets
the next-offer index to 0. -/
theorem c5_previously_offered_index_reoffered :
    offered_sequence (AVAILABLE_APPOINTMENTS.take 2) [none, some false] =
      [0, 0] ∧
    offered_sequence (AVAILABLE_APPOINTMENTS.take 2)
        [some false, some false, some false, some false] = [0, 1, -1, 0] :=
  ⟨rfl, rfl⟩

/-- Claim C5 (amended): across "decline" events that each answer an
actually offered slot (at most `len(slots)` declines from a fresh
session), the currently-offered index is strictly increasing — entry
`k+1` offers exactly index `k` — so no index repeats on such runs.  The
ambiguous-response path, however, deliberately re-offers the same index,
and the internal-inconsistency recovery resets the next-offer index to
0, so across those paths previously offered indices are offered again. -/
theorem c5_decline_run_strictly_increasing (appts : List Appt) (k : Nat)
    (hk : k ≤ appts.length) :
    offered_sequence appts (List.replicate k (some false)) =
      (List.range k).map (Nat.cast : Nat → Int) ∧
    (offered_sequence appts (List.replicate k (some false))).Pairwise (· < ·) := by
  have h0 : initialApptCtx.current_appointment_offer_index = 0 := rfl
  have h := run_offer_rounds_declines appts k initialApptCtx (by omega)
  rw [h0] at h
  have heq : offered_sequence appts (List.replicate k (some false)) =
      (List.range k).map (Nat.cast : Nat → Int) := by
    rw [offered_sequence, h, List.range_eq_range']
  refine ⟨heq, ?_⟩
  rw [heq]
  simp only [List.pairwise_map]
  exact (List.pairwise_lt_range k).imp (by intro a b hab; exact_mod_cast hab)

/-- Witness for C5 (amended): two declines over a two-slot list offer
indices 0 then 1. -/
theorem c5_decline_run_witness :
    2 ≤ (AVAILABLE_APPOINTMENTS.take 2).length ∧
    offered_sequence (AVAILABLE_APPOINTMENTS.take 2)
        (List.replicate 2 (some false)) = [0, 1] := by
  refine ⟨by decide, ?_⟩
  have h := (c5_decline_run_strictly_increasing
    (AVAILABLE_APPOINTMENTS.take 2) 2 (by decide)).1
  exact h.trans (by decide)

/-- Counterexample to claim C6 as stated: after two declines over a
two-slot list, the third entry into the offer node does render the
no-more-slots message, but it does not expose only the no-suitable-slot
completion function — the `offer_appointments` node configuration lists
both functions unconditionally, so `process_appointment_acceptance`
(accept/decline) remains callable. -/
theorem c6_accept_function_still_exposed :
    (third_entry_ctx { doctor := "Dr. Smith", day := "Monday", time := "10:00 AM" }
        { doctor := "Dr. Jones", day := "Tuesday", time := "2:30 PM" }).task_message
      = TaskMsg.noMoreSlots ∧
    ("process_appointment_acceptance") ∈ offer_appointments_functions :=
  ⟨rfl, by decide⟩

/-- Claim C6 (amended): with a two-slot list and two consecutive
declines, the third entry into the offer node renders the no-more-slots
message, marks nothing as currently offered (index −1, offering flag
false) — but the node's static function schema still exposes both
`process_appointment_acceptance` and
`no_appointment_found_or_all_declined`; a further accept/decline call is
handled by the internal-inconsistency recovery, which resets the
next-offer index to 0 and re-enters the offer node. -/
theorem c6_third_entry_no_more_slots (a b : Appt) :
    (third_entry_ctx a b).task_message = TaskMsg.noMoreSlots ∧
    (third_entry_ctx a b).currently_offered_index = -1 ∧
    (third_entry_ctx a b).offering_now = false ∧
    offer_appointments_functions =
      [("process_appointment_acceptance"),
       ("no_appointment_found_or_all_declined")] ∧
    handle_appointment_choice [a, b] (some false) (third_entry_ctx a b) =
      ({ third_entry_ctx a b with current_appointment_offer_index := 0 },
       "offer_appointments") :=
  ⟨rfl, rfl, rfl, rfl, rfl⟩

/-- A successful match of the e-mail pattern is non-empty (its local
part has at least one character). -/
theorem matchEmailAt_ne_nil (prev : Option Char) (l : List Char)
    (m rest : List Char) (lastc : Char)
    (h : matchEmailAt prev l = some (m, rest, lastc)) : m ≠ [] := by
  unfold matchEmailAt at h
  split at h
  · exact Option.noConfusion h
  · split at h
    · exact Option.noConfusion h
    · split at h
      · exact Option.noConfusion h
      · split at h
        · split at h
          · injection h with h'
            have hm : _ = m := congrArg Prod.fst h'
            rw [← hm]
            intro hemp
            rcases List.append_eq_nil.mp hemp with ⟨-, h2⟩
            exact List.noConfusion h2
          · exact Option.noConfusion h
        · exact Option.noConfusion h

/-- Every string produced by the `re.findall` scan is non-empty. -/
theorem findEmails_ne_empty (s : String) : ∀ e ∈ findEmails s, e ≠ "" := by
  have haux : ∀ (fuel : Nat) (prev : Option Char) (l : List Char),
      ∀ m ∈ scanEmails fuel prev l, m ≠ [] := by
    intro fuel
    induction fuel with
    | zero => intro prev l m hm; cases hm
    | succ fuel ih =>
      intro prev l m hm
      cases l with
      | nil => cases hm
      | cons c rest =>
        rw [scanEmails] at hm
        split at hm
        · rename_i mm remaining lastc hmatch
          cases hm with
          | head => exact matchEmailAt_ne_nil _ _ _ _ _ hmatch
          | tail _ hmem => exact ih _ _ m hmem
        · exact ih _ _ m hm
  intro e he
  obtain ⟨lc, hlc, rfl⟩ := List.mem_map.mp he
  intro hemp
  exact haux _ _ _ lc hlc (congrArg String.data hemp)

/-- Support for the C7 email hypothesis: whatever input the email
collection handler receives, the value it commits to the `email` field
is non-empty (a lowered match, the raw fallback, or the placeholder). -/
theorem handle_email_collection_stores_nonempty (raw : String) (st : StateStore) :
    ∃ e : String, e ≠ "" ∧
      handle_email_collection raw st =
        (dictSet ("email") (PyVal.vStr e) st, NodeRef.confirmEmail e) := by
  by_cases hraw : raw = ""
  · subst hraw
    exact ⟨"placeholder@example.com", by decide, rfl⟩
  · cases hf : findEmails raw with
    | nil =>
      refine ⟨raw, hraw, ?_⟩
      unfold handle_email_collection
      rw [if_pos hraw, hf, if_pos hraw]
    | cons e es =>
      have hene : e ≠ "" := findEmails_ne_empty raw e (hf ▸ List.mem_cons_self e es)
      refine ⟨pyLower e, ?_, ?_⟩
      · intro h
        apply hene
        have : e.toList.map pyLowerChar = [] := congrArg String.data h
        have : e.toList = [] := List.map_eq_nil_iff.mp this
        exact congrArg String.mk this |>.trans rfl
      · unfold handle_email_collection
        rw [if_pos hraw, hf]
